import Mathlib

/-!
Shallow embedding of the ALSA capture plugin (`src/plugins/linux-alsa/alsa-input.c`).

Hardware and OS calls (`snd_pcm_*`, `os_event_*`, `pthread_create`) are modelled as
oracles: an environment record supplies each call's return code and output values,
and the embedded functions replay the C control flow over those results.  Side
effects on hardware (signals, joins, closes, resume/prepare calls) are recorded in
explicit trace records so that "the code performs no close" is a provable statement.
-/

/-- Session state, mirroring `struct alsa_data`.  Handles (`pcm`, `thread`,
`event`) are modelled as booleans: `true` means the handle is set (non-null). -/
structure AlsaData where
  pcm : Bool
  thread : Bool
  event : Bool
  device : String
  channels : Nat
  sample_rate : Nat
  period_size : Nat
  buffer_size : Nat
deriving DecidableEq, Repr

/-- `#define MAX_BUFFER_TIME_US 500000` (line 31). -/
def MAX_BUFFER_TIME_US : Nat := 500000

/-- `#define OBS_MIN(a,b) ((a)<(b)?(a):(b))` (line 29). -/
def OBS_MIN (a b : Nat) : Nat := if a < b then a else b

/-- `#define OBS_MAX(a,b) ((a)>(b)?(a):(b))` (line 30). -/
def OBS_MAX (a b : Nat) : Nat := if a > b then a else b

/-- Linux `EAGAIN` errno value; the code compares results against `-EAGAIN`. -/
def EAGAIN : Int := 11

/-- Lines 306-313 of `alsa_set_hwparams`: clamp the hardware's maximum buffer
time to the ceiling, then raise the hardware's minimum period time to at least a
quarter of the clamped buffer time.  Returns `(buffer_time, period_time)` as
passed to the two `set_..._near` calls. -/
def committedTimes (bufferTimeMax periodTimeMin : Nat) : Nat × Nat :=
  let buffer_time := OBS_MIN bufferTimeMax MAX_BUFFER_TIME_US
  let period_time := OBS_MAX periodTimeMin (buffer_time / 4)
  (buffer_time, period_time)

/-- Oracle results for the ALSA calls made by `alsa_set_hwparams`.  Each `...Ret`
field is the return code of the corresponding `snd_pcm_hw_params_*` call; the
`...Out` / `...Near` fields are the values those calls write through their
pointer arguments. -/
structure HwEnv where
  anyRet : Int
  accessRet : Int
  formatRet : Int
  channelsRet : Int
  rateRet : Int
  rateNear : Nat
  bufferTimeMax : Nat
  periodTimeMin : Nat
  setBufferTimeRet : Int
  setPeriodTimeRet : Int
  periodSizeOut : Nat
  bufferSizeOut : Nat
  applyRet : Int
deriving DecidableEq, Repr

/-- Result of `alsa_set_hwparams`: the returned error code, the updated session
state, and the `(buffer_time, period_time)` pair passed to the
`set_buffer_time_near` / `set_period_time_near` calls (`none` when negotiation
aborted before computing them). -/
structure HwResult where
  ret : Int
  data : AlsaData
  committed : Option (Nat × Nat)
deriving DecidableEq, Repr

/-- `alsa_set_hwparams` (lines 287-325).  Each fallible step is guarded by
`CHECK_RETURN`, which returns the negative code on failure.  NOTE the final
`snd_pcm_hw_params(pcm, params)` call on line 316: the C code discards its
return value (`env.applyRet` here), so the `CHECK_RETURN` that follows tests
the stale, non-negative `ret` from `set_period_time_near` and the function
returns 0 regardless of whether the final apply succeeded. -/
def alsa_set_hwparams (env : HwEnv) (d : AlsaData) : HwResult :=
  if env.anyRet < 0 then ⟨env.anyRet, d, none⟩
  else if env.accessRet < 0 then ⟨env.accessRet, d, none⟩
  else if env.formatRet < 0 then ⟨env.formatRet, d, none⟩
  else if env.channelsRet < 0 then ⟨env.channelsRet, d, none⟩
  else if env.rateRet < 0 then ⟨env.rateRet, d, none⟩
  else
    let d1 : AlsaData := { d with sample_rate := env.rateNear }
    let times := committedTimes env.bufferTimeMax env.periodTimeMin
    if env.setBufferTimeRet < 0 then ⟨env.setBufferTimeRet, d1, some times⟩
    else if env.setPeriodTimeRet < 0 then ⟨env.setPeriodTimeRet, d1, some times⟩
    else
      let d2 : AlsaData := { d1 with period_size := env.periodSizeOut,
                                     buffer_size := env.bufferSizeOut }
      let _applyDiscarded := env.applyRet
      ⟨0, d2, some times⟩

/-- Oracle results for the calls made by `alsa_init`: `snd_pcm_open`,
the nested `alsa_set_hwparams`, `os_event_init` (nonzero = failure) and
`pthread_create` (nonzero = failure). -/
structure InitEnv where
  openRet : Int
  hw : HwEnv
  eventInitRet : Int
  threadCreateRet : Int
deriving DecidableEq, Repr

/-- `alsa_init` (lines 327-349).  On open failure it returns false with the
state untouched; on any later failure it returns false without closing the
device or destroying the event — only the failed step's own resource is unset. -/
def alsa_init (env : InitEnv) (d : AlsaData) : Bool × AlsaData :=
  if env.openRet < 0 then (false, d)
  else
    let dOpen : AlsaData := { d with pcm := true }
    let hw := alsa_set_hwparams env.hw dOpen
    if hw.ret < 0 then (false, hw.data)
    else if env.eventInitRet ≠ 0 then (false, hw.data)
    else
      let dEvent : AlsaData := { hw.data with event := true }
      if env.threadCreateRet ≠ 0 then (false, dEvent)
      else (true, { dEvent with thread := true })

/-- Side effects performed by `alsa_terminate`. -/
structure TermTrace where
  signaled : Bool
  joined : Bool
  eventDestroyed : Bool
  pcmClosed : Bool
deriving DecidableEq, Repr

/-- `alsa_terminate` (lines 210-223): signal/join/destroy only when the thread
handle is set, close only when the pcm handle is set. -/
def alsa_terminate (d : AlsaData) : AlsaData × TermTrace :=
  let d1 := if d.thread then { d with thread := false } else d
  let d2 := if d1.pcm then { d1 with pcm := false } else d1
  (d2, ⟨d.thread, d.thread, d.thread, d1.pcm⟩)

/-- Side effects performed by `alsa_destroy`. -/
structure DestroyTrace where
  terminateCalled : Bool
  freedDevice : Bool
  freedData : Bool
deriving DecidableEq, Repr

/-- `alsa_destroy` (lines 380-392): guard `if (!data) return;` makes a null
session pointer a no-op; otherwise terminate, free the device string, free the
session. -/
def alsa_destroy : Option AlsaData → Option AlsaData × DestroyTrace
  | none => (none, ⟨false, false, false⟩)
  | some d =>
      let _term := alsa_terminate d
      (none, ⟨true, true, true⟩)

/-- The device states distinguished by `alsa_handle_xrun`'s switch. -/
inductive PcmState where
  | suspended
  | xrun
  | other
deriving DecidableEq, Repr

/-- Oracle for `alsa_handle_xrun`: the reported device state, how many times
`snd_pcm_resume` returns `-EAGAIN` before a decisive result, that decisive
result, and `snd_pcm_prepare`'s return code. -/
structure XrunEnv where
  state : PcmState
  resumeEagainCount : Nat
  resumeFinalRet : Int
  prepareRet : Int
deriving DecidableEq, Repr

/-- Hardware calls performed by `alsa_handle_xrun`. -/
structure XrunTrace where
  resumeCalls : Nat
  sleeps : Nat
  prepareCalls : Nat
deriving DecidableEq, Repr

/-- `alsa_handle_xrun` (lines 188-208).  Suspended: retry resume while it
returns `-EAGAIN`, sleeping between attempts; `if (ret >= 0) break;` exits the
switch on resume success (returning 0 with no prepare), and only a decisive
resume failure falls through to the XRUN case.  XRUN: a single prepare, whose
failure is returned.  Any other state: return -1 with no hardware call. -/
def alsa_handle_xrun (env : XrunEnv) : Int × XrunTrace :=
  match env.state with
  | .suspended =>
      let resumeCalls := env.resumeEagainCount + 1
      let sleeps := env.resumeEagainCount
      if 0 ≤ env.resumeFinalRet then (0, ⟨resumeCalls, sleeps, 0⟩)
      else if env.prepareRet < 0 then (env.prepareRet, ⟨resumeCalls, sleeps, 1⟩)
      else (0, ⟨resumeCalls, sleeps, 1⟩)
  | .xrun =>
      if env.prepareRet < 0 then (env.prepareRet, ⟨0, 0, 1⟩)
      else (0, ⟨0, 0, 1⟩)
  | .other => (-1, ⟨0, 0, 0⟩)

/-- Assignment of a signed `snd_pcm_sframes_t` to the unsigned 32-bit
`obs_audio.frames` field. -/
def wrap32 (n : Int) : Nat := (n % (2 ^ 32 : Int)).toNat

/-- `count -= frames` where `count` is the unsigned 64-bit
`snd_pcm_uframes_t` and `frames` is signed: two's-complement wraparound. -/
def wrap64sub (count : Nat) (frames : Int) : Nat :=
  (((count : Int) - frames) % (2 ^ 64 : Int)).toNat

/-- One delivered `obs_source_audio` buffer: the frame count stored in the
unsigned `frames` field and the computed timestamp. -/
structure Buffer where
  frames : Nat
  timestamp : Int
deriving DecidableEq, Repr

/-- Oracle for one `snd_pcm_mmap_readn` call inside the read sub-loop:
the call's return value, whether `alsa_handle_xrun` succeeds if the result is a
fault, and the delay `snd_pcm_delay` reports if a buffer is delivered. -/
structure ReadStep where
  frames : Int
  xrunOk : Bool
  delay : Int
deriving DecidableEq, Repr

/-- The read sub-loop of `alsa_thread` (lines 260-278), parametric in the host's
`get_audio_sample_time` function `ts`.  Per iteration: `-EAGAIN` retries
without touching `count`; any other negative result invokes recovery and a
recovery failure is `goto exit` (the `Bool` component becomes `false`);
otherwise — including a *recovered* fault, since the C code lacks a `continue`
there — the result is delivered as a buffer with timestamp
`ts (frames + delay) rate` and `count -= frames` is executed with unsigned
wraparound.  The oracle list bounds the modelled iterations; an exhausted
oracle returns the remaining `count` unchanged. -/
def readLoop (ts : Int → Nat → Int) (rate : Nat) :
    List ReadStep → Nat → List Buffer × Bool × Nat
  | [], count => ([], true, count)
  | s :: rest, count =>
    if count = 0 then ([], true, 0)
    else if s.frames = -EAGAIN then readLoop ts rate rest count
    else if s.frames < 0 ∧ s.xrunOk = false then ([], false, count)
    else
      let buf : Buffer := ⟨wrap32 s.frames, ts (s.frames + s.delay) rate⟩
      let r := readLoop ts rate rest (wrap64sub count s.frames)
      (buf :: r.1, r.2.1, r.2.2)

/-- One capture sub-device of a card, as seen by the enumeration loop:
whether `snd_ctl_pcm_info` succeeds for it, and its PCM name. -/
structure SubDevice where
  pcmInfoOk : Bool
  name : String
deriving DecidableEq, Repr

/-- One sound card, as seen by the enumeration loop: whether `snd_ctl_open`
and `snd_ctl_card_info` succeed, the card name, and its sub-devices. -/
structure Card where
  openOk : Bool
  infoOk : Bool
  name : String
  devices : List SubDevice
deriving DecidableEq, Repr

/-- One `(description, selector)` pair added to the property list. -/
structure Entry where
  label : String
  selector : String
deriving DecidableEq, Repr

/-- The inner device loop of `alsa_device_list` (lines 126-159): a sub-device
whose `snd_ctl_pcm_info` fails is skipped (`continue`), the rest are emitted
with selector `plughw:card,device` and a label combining selector, card name
and PCM name. -/
def deviceEntries (cardIdx : Nat) (cardName : String) : Nat → List SubDevice → List Entry
  | _, [] => []
  | devIdx, dev :: rest =>
    if dev.pcmInfoOk then
      let device_str := "plughw:" ++ toString cardIdx ++ "," ++ toString devIdx
      ⟨device_str ++ " (" ++ cardName ++ ", " ++ dev.name ++ ")", device_str⟩ ::
        deviceEntries cardIdx cardName (devIdx + 1) rest
    else deviceEntries cardIdx cardName (devIdx + 1) rest

/-- Per-card body of `alsa_device_list`'s outer loop (lines 112-161): a card
whose `snd_ctl_open` or `snd_ctl_card_info` fails contributes nothing
(`continue`); otherwise its capture sub-devices are enumerated. -/
def cardEntries (cardIdx : Nat) (c : Card) : List Entry :=
  if c.openOk = false then []
  else if c.infoOk = false then []
  else deviceEntries cardIdx c.name 0 c.devices

/-- The outer card walk of `alsa_device_list`, indexing cards in order. -/
def cardsFrom : Nat → List Card → List Entry
  | _, [] => []
  | i, c :: rest => cardEntries i c ++ cardsFrom (i + 1) rest

/-- The synthetic first entry added on line 93. -/
def defaultEntry : Entry := ⟨"Default Audio Device", "default"⟩

/-- `alsa_device_list` (lines 84-163): clear the list, add the synthetic
default entry, then walk every card. -/
def alsa_device_list (cards : List Card) : List Entry :=
  defaultEntry :: cardsFrom 0 cards

/-- A freshly terminated session: both handles null, default configuration
from `alsa_create` (48 kHz, stereo, device "default"). -/
def dataClean : AlsaData :=
  ⟨false, false, false, "default", 2, 48000, 0, 0⟩

/-- A hardware oracle on which every negotiation call succeeds; the hardware
reports a 600 ms maximum buffer time and a 10 ms minimum period time. -/
def hwEnvOk : HwEnv :=
  ⟨0, 0, 0, 0, 0, 48000, 600000, 10000, 0, 0, 480, 24000, 0⟩

/-- Same oracle, except the final `snd_pcm_hw_params` apply call fails with
`-EBADFD` (-77). -/
def hwEnvApplyFails : HwEnv := { hwEnvOk with applyRet := -77 }

/-- An `alsa_init` oracle on which the device opens but hardware-parameter
negotiation fails at its first step (`-EINVAL`). -/
def initEnvHwFail : InitEnv :=
  ⟨0, { hwEnvOk with anyRet := -22 }, 0, 0⟩

/-- A recovery oracle: device suspended, resume returns `-EAGAIN` twice and
then succeeds. -/
def xrunEnvResumeOk : XrunEnv :=
  ⟨.suspended, 2, 0, 0⟩

/-- A concrete stand-in for the host's `get_audio_sample_time`, used to
instantiate the loop theorems on closed inputs. -/
def tsId : Int → Nat → Int := fun f _ => f

/-- A read that faults with `-EPIPE` (-32) and whose recovery succeeds. -/
def readFaultStep : ReadStep := ⟨-32, true, 0⟩

/-- A card whose `snd_ctl_open` fails. -/
def cardBadOpen : Card := ⟨false, true, "HDA Intel", [⟨true, "ALC887"⟩]⟩

/-- A card on which every enumeration call succeeds. -/
def cardGood : Card := ⟨true, true, "USB Audio", [⟨true, "Mic"⟩]⟩

/-- A recovery oracle reporting the XRUN state, with prepare succeeding. -/
def xrunEnvPrepareOnly : XrunEnv := ⟨.xrun, 0, 0, 0⟩

/-- A read that succeeds with a full period of 480 frames while the hardware
reports 100 frames of delay. -/
def goodReadStep : ReadStep := ⟨480, true, 100⟩

/-- Helper: `alsa_set_hwparams` never touches the `pcm`, `thread` or `event`
handles of the session — it only writes `sample_rate`, `period_size`,
`buffer_size`. -/
theorem alsa_set_hwparams_handles (env : HwEnv) (d : AlsaData) :
    (alsa_set_hwparams env d).data.pcm = d.pcm ∧
    (alsa_set_hwparams env d).data.thread = d.thread ∧
    (alsa_set_hwparams env d).data.event = d.event := by
  unfold alsa_set_hwparams
  repeat' split
  all_goals simp

/-- Helper: whenever `alsa_set_hwparams` reaches the buffer/period-time steps,
the pair it passes to the `set_..._near` calls is exactly
`committedTimes bufferTimeMax periodTimeMin`. -/
theorem alsa_set_hwparams_committed (env : HwEnv) (d : AlsaData) :
    (alsa_set_hwparams env d).committed = none ∨
    (alsa_set_hwparams env d).committed =
      some (committedTimes env.bufferTimeMax env.periodTimeMin) := by
  unfold alsa_set_hwparams
  repeat' split
  all_goals simp

/-- C10: calling `alsa_destroy` with a null session pointer is a no-op — it
returns immediately (null result stays null) without invoking
`alsa_terminate` or freeing any memory. -/
theorem c10_null_destroy_noop :
    alsa_destroy none = (none, ⟨false, false, false⟩) := rfl

/-- C8: `alsa_terminate` on an already-stopped session (thread handle and
device handle both null) performs no signal, no join, no event destruction and
no close, and leaves the session state unchanged. -/
theorem c8_terminate_idempotent (d : AlsaData) (ht : d.thread = false)
    (hp : d.pcm = false) :
    alsa_terminate d = (d, ⟨false, false, false, false⟩) := by
  simp [alsa_terminate, ht, hp]

/-- Witness for C8 at the concrete stopped session `dataClean`. -/
theorem c8_terminate_idempotent_witness :
    alsa_terminate dataClean = (dataClean, ⟨false, false, false, false⟩) :=
  c8_terminate_idempotent dataClean rfl rfl

/-- C2 (code bug): when every negotiation step succeeds but the final
`snd_pcm_hw_params` apply call fails (here with `-EBADFD` = -77),
`alsa_set_hwparams` still returns 0, because line 316 discards the call's
return value and the following `CHECK_RETURN` tests the stale `ret`. -/
theorem c2_final_apply_ignored :
    hwEnvApplyFails.applyRet < 0 ∧
      (alsa_set_hwparams hwEnvApplyFails dataClean).ret = 0 := by decide

/-- C5: whatever buffer/period times `alsa_set_hwparams` passes to the
`set_..._near` calls satisfy `buffer_time ≤ 500000` and
`period_time ≥ buffer_time / 4`. -/
theorem c5_buffer_period_bounds (env : HwEnv) (d : AlsaData) (bt pt : Nat)
    (h : (alsa_set_hwparams env d).committed = some (bt, pt)) :
    bt ≤ MAX_BUFFER_TIME_US ∧ bt / 4 ≤ pt := by
  have key : (committedTimes env.bufferTimeMax env.periodTimeMin).1 ≤ MAX_BUFFER_TIME_US ∧
      (committedTimes env.bufferTimeMax env.periodTimeMin).1 / 4 ≤
        (committedTimes env.bufferTimeMax env.periodTimeMin).2 := by
    simp only [committedTimes, OBS_MIN, OBS_MAX, MAX_BUFFER_TIME_US]
    split_ifs <;> constructor <;> omega
  rcases alsa_set_hwparams_committed env d with hc | hc
  · rw [hc] at h; cases h
  · rw [hc] at h
    have h2 : committedTimes env.bufferTimeMax env.periodTimeMin = (bt, pt) :=
      Option.some.inj h
    rw [h2] at key
    exact key

/-- Witness for C5 on the concrete oracle `hwEnvOk` (hardware max 600 ms,
hardware min 10 ms): the committed pair is (500000, 125000). -/
theorem c5_buffer_period_bounds_witness :
    (alsa_set_hwparams hwEnvOk dataClean).committed = some (500000, 125000) ∧
      (500000 ≤ MAX_BUFFER_TIME_US ∧ 500000 / 4 ≤ 125000) :=
  ⟨by decide, c5_buffer_period_bounds hwEnvOk dataClean 500000 125000 (by decide)⟩

/-- C9: the synthetic default entry is always the first entry of the device
list, for every card population; a card whose open or info query fails
contributes no entries while the remaining cards are enumerated unchanged; a
sub-device whose pcm-info query fails is skipped while the remaining
sub-devices are enumerated unchanged. -/
theorem c9_enumeration_skips_failures :
    (∀ cards : List Card, (alsa_device_list cards).head? = some defaultEntry) ∧
    (∀ (i : Nat) (c : Card) (rest : List Card),
      c.openOk = false ∨ c.infoOk = false →
      cardsFrom i (c :: rest) = cardsFrom (i + 1) rest) ∧
    (∀ (i : Nat) (nm : String) (j : Nat) (dev : SubDevice) (rest : List SubDevice),
      dev.pcmInfoOk = false →
      deviceEntries i nm j (dev :: rest) = deviceEntries i nm (j + 1) rest) := by
  refine ⟨fun cards => rfl, ?_, ?_⟩
  · intro i c rest h
    rcases h with h | h
    · simp [cardsFrom, cardEntries, h]
    · cases ho : c.openOk <;> simp [cardsFrom, cardEntries, h, ho]
  · intro i nm j dev rest h
    simp [deviceEntries, h]

/-- Witness for C9: a card with a failed open contributes nothing, the good
card after it is still enumerated, and the default entry is still first. -/
theorem c9_enumeration_skips_failures_witness :
    cardsFrom 0 [cardBadOpen, cardGood] = cardsFrom 1 [cardGood] ∧
      (alsa_device_list [cardBadOpen, cardGood]).head? = some defaultEntry :=
  ⟨c9_enumeration_skips_failures.2.1 0 cardBadOpen [cardGood] (Or.inl rfl),
    c9_enumeration_skips_failures.1 [cardBadOpen, cardGood]⟩

/-- C1 counterexample: on the oracle where the device opens but
hardware-parameter negotiation fails, `alsa_init` reports failure yet leaves
the device handle set (device still open) with the thread handle unset —
exactly one of the two handles is set. -/
theorem c1_failed_init_leaves_pcm_open :
    (alsa_init initEnvHwFail dataClean).1 = false ∧
      (alsa_init initEnvHwFail dataClean).2.pcm = true ∧
      (alsa_init initEnvHwFail dataClean).2.thread = false := by decide

/-- C1 (amended): after a failed `alsa_init` on a torn-down session, the
thread handle is always unset, and the device handle is set if and only if the
failure happened after the open step — only an open failure leaves both
handles unset. -/
theorem c1_failed_init_state (env : InitEnv) (d : AlsaData) (hp : d.pcm = false)
    (ht : d.thread = false) (hfail : (alsa_init env d).1 = false) :
    (alsa_init env d).2.thread = false ∧
      ((alsa_init env d).2.pcm = true ↔ 0 ≤ env.openRet) := by
  obtain ⟨h1, h2, h3⟩ := alsa_set_hwparams_handles env.hw { d with pcm := true }
  simp only [alsa_init] at hfail ⊢
  set hwr := alsa_set_hwparams env.hw { d with pcm := true } with hdef
  have hpcm : hwr.data.pcm = true := h1
  have hthr : hwr.data.thread = false := by rw [h2]; exact ht
  by_cases ho : env.openRet < 0
  · simp [ho, hp, ht]
  · by_cases hw1 : hwr.ret < 0
    · simp [ho, hw1, hpcm, hthr]
      omega
    · by_cases he : env.eventInitRet ≠ 0
      · simp [ho, hw1, he, hpcm, hthr]
        omega
      · by_cases htc : env.threadCreateRet ≠ 0
        · simp [ho, hw1, he, htc, hpcm, hthr]
          omega
        · simp [ho, hw1, he, htc] at hfail

/-- Witness for the amended C1 at the concrete failing oracle. -/
theorem c1_failed_init_state_witness :
    (alsa_init initEnvHwFail dataClean).1 = false ∧
      ((alsa_init initEnvHwFail dataClean).2.thread = false ∧
        ((alsa_init initEnvHwFail dataClean).2.pcm = true ↔
          0 ≤ initEnvHwFail.openRet)) :=
  ⟨by decide, c1_failed_init_state initEnvHwFail dataClean rfl rfl (by decide)⟩

/-- C3 counterexample: with the device suspended and resume succeeding (after
two retryable attempts), `alsa_handle_xrun` returns success with three resume
calls, two sleeps and ZERO prepare calls — `if (ret >= 0) break;` exits the
switch, so a successful resume is not followed by a prepare. -/
theorem c3_resume_success_skips_prepare :
    xrunEnvResumeOk.state = PcmState.suspended ∧
      0 ≤ xrunEnvResumeOk.resumeFinalRet ∧
      alsa_handle_xrun xrunEnvResumeOk = (0, ⟨3, 2, 0⟩) := by decide

/-- C3 (amended): full classification of `alsa_handle_xrun`.  Suspended:
resume is retried (one sleep per retryable attempt) until a decisive result;
on resume success recovery returns 0 with no prepare; on decisive resume
failure control falls through to a single prepare whose failure decides the
result.  XRUN: exactly one prepare, no resume.  Any other state: failure (-1)
with no resume, no prepare. -/
theorem c3_recovery_classification (env : XrunEnv) :
    (env.state = PcmState.other → alsa_handle_xrun env = (-1, ⟨0, 0, 0⟩)) ∧
    (env.state = PcmState.xrun →
      alsa_handle_xrun env =
        ((if env.prepareRet < 0 then env.prepareRet else 0), ⟨0, 0, 1⟩)) ∧
    (env.state = PcmState.suspended → 0 ≤ env.resumeFinalRet →
      alsa_handle_xrun env =
        (0, ⟨env.resumeEagainCount + 1, env.resumeEagainCount, 0⟩)) ∧
    (env.state = PcmState.suspended → env.resumeFinalRet < 0 →
      alsa_handle_xrun env =
        ((if env.prepareRet < 0 then env.prepareRet else 0),
          ⟨env.resumeEagainCount + 1, env.resumeEagainCount, 1⟩)) := by
  refine ⟨?_, ?_, ?_, ?_⟩
  · intro hs
    simp [alsa_handle_xrun, hs]
  · intro hs
    simp only [alsa_handle_xrun, hs]
    split <;> simp
  · intro hs hr
    simp [alsa_handle_xrun, hs, hr]
  · intro hs hr
    have hr' : ¬ 0 ≤ env.resumeFinalRet := by omega
    simp only [alsa_handle_xrun, hs, if_neg hr']
    split <;> simp
/-- Witness for the amended C3 at the concrete XRUN-state oracle. -/
theorem c3_recovery_classification_witness :
    xrunEnvPrepareOnly.state = PcmState.xrun ∧
      alsa_handle_xrun xrunEnvPrepareOnly =
        ((if xrunEnvPrepareOnly.prepareRet < 0 then xrunEnvPrepareOnly.prepareRet
          else 0), ⟨0, 0, 1⟩) :=
  ⟨rfl, (c3_recovery_classification xrunEnvPrepareOnly).2.1 rfl⟩

/-- C4 (code bug): a read that faults with `-EPIPE` (-32) and is then
successfully recovered does NOT return the loop to the waiting state: the C
code lacks a `continue` after recovery, so the negative result is delivered as
a buffer whose unsigned frame count is `2^32 - 32 = 4294967264` and
`count -= frames` raises the remaining period quota from 480 to 512. -/
theorem c4_recovered_read_fault_delivers :
    readLoop tsId 48000 [readFaultStep] 480 =
      ([⟨4294967264, -32⟩], true, 512) := by decide

/-- C6: every buffer the read sub-loop delivers gets its timestamp from the
host's audio-sample-time function applied to (frames just read + the
hardware-reported delay, sample rate), and its frame count from that same
read — the timestamp compensates for hardware buffering latency. -/
theorem c6_timestamp_from_delay (ts : Int → Nat → Int) (rate : Nat) :
    ∀ (steps : List ReadStep) (count : Nat) (buf : Buffer),
      buf ∈ (readLoop ts rate steps count).1 →
      ∃ s ∈ steps, buf.frames = wrap32 s.frames ∧
        buf.timestamp = ts (s.frames + s.delay) rate := by
  intro steps
  induction steps with
  | nil =>
    intro count buf h
    simp [readLoop] at h
  | cons s rest ih =>
    intro count buf h
    by_cases hc : count = 0
    · simp [readLoop, hc] at h
    · simp only [readLoop, if_neg hc] at h
      by_cases he : s.frames = -EAGAIN
      · rw [if_pos he] at h
        obtain ⟨s', hs', hpr⟩ := ih count buf h
        exact ⟨s', List.mem_cons_of_mem s hs', hpr⟩
      · rw [if_neg he] at h
        by_cases hf : s.frames < 0 ∧ s.xrunOk = false
        · rw [if_pos hf] at h
          simp at h
        · rw [if_neg hf] at h
          simp only [List.mem_cons] at h
          rcases h with h | h
          · exact ⟨s, List.mem_cons_self s rest, by rw [h], by rw [h]⟩
          · obtain ⟨s', hs', hpr⟩ := ih _ buf h
            exact ⟨s', List.mem_cons_of_mem s hs', hpr⟩

/-- Witness for C6: a successful full-period read of 480 frames with a
reported delay of 100 frames yields a delivered buffer stamped
`ts (480 + 100) rate`. -/
theorem c6_timestamp_from_delay_witness :
    Buffer.mk 480 580 ∈ (readLoop tsId 48000 [goodReadStep] 480).1 ∧
      ∃ s ∈ [goodReadStep], (Buffer.mk 480 580).frames = wrap32 s.frames ∧
        (Buffer.mk 480 580).timestamp = tsId (s.frames + s.delay) 48000 :=
  ⟨by decide,
    c6_timestamp_from_delay tsId 48000 [goodReadStep] 480 ⟨480, 580⟩ (by decide)⟩

/-- C7: a read returning the retryable `-EAGAIN` is re-attempted without
consuming any of the period's frame quota (the loop state is exactly as if
that read had not happened), and in the concrete scenario "one retryable
error, then a full period" exactly one buffer is delivered, carrying the full
period frame count, with the quota exhausted (no duplicate delivery). -/
theorem c7_eagain_consumes_no_quota (ts : Int → Nat → Int) (rate : Nat) :
    (∀ (xo : Bool) (de : Int) (steps : List ReadStep) (count : Nat), 0 < count →
      readLoop ts rate (⟨-EAGAIN, xo, de⟩ :: steps) count =
        readLoop ts rate steps count) ∧
    (∀ (period : Nat) (xo xo2 : Bool) (de de2 : Int),
      0 < period → period < 2 ^ 32 →
      readLoop ts rate [⟨-EAGAIN, xo, de⟩, ⟨(period : Int), xo2, de2⟩] period =
        ([⟨period, ts ((period : Int) + de2) rate⟩], true, 0)) := by
  constructor
  · intro xo de steps count hcount
    have hc : ¬ count = 0 := by omega
    simp [readLoop, hc]
  · intro period xo xo2 de de2 h0 h32
    have hc : ¬ period = 0 := by omega
    have hne : ¬ ((period : Int) = -EAGAIN) := by
      simp only [EAGAIN]
      omega
    have hnn : ¬ ((period : Int) < 0 ∧ xo2 = false) := by
      rintro ⟨hlt, -⟩
      omega
    have hw : wrap32 (period : Int) = period := by
      simp only [wrap32]
      rw [Int.emod_eq_of_lt (by omega) (by exact_mod_cast h32)]
      simp
    have hz : wrap64sub period (period : Int) = 0 := by
      simp [wrap64sub]
    simp [readLoop, hc, hne, hnn, hw, hz]

/-- Witness for C7: with a 480-frame period, `-EAGAIN` then a full read
deliver exactly one 480-frame buffer. -/
theorem c7_eagain_consumes_no_quota_witness :
    readLoop tsId 48000 [⟨-EAGAIN, false, 0⟩, ⟨((480 : Nat) : Int), false, 100⟩] 480 =
      ([⟨480, tsId (((480 : Nat) : Int) + 100) 48000⟩], true, 0) :=
  (c7_eagain_consumes_no_quota tsId 48000).2 480 false false 0 100
    (by decide) (by decide)
